import Mathlib

/-!
Verification development for the Earth Engine analysis script
Forest_Fire_Code_GEE.js (remote sensing of the 2019 Australian bush fire
pollutant flow).  The script is a declarative composition of Earth Engine
collection primitives; we give a shallow embedding of those primitives
(dates, image collections, filters, temporal and spatial reducers) and of
the concrete pipelines the script builds, and prove the specified
properties about them.  Numeric raster values are modelled as rationals so
that the fixed decimal constants of the script are represented exactly.
-/

namespace AusFire

/-- A calendar date, as produced by ee.Date.fromYMD in the script. -/
structure EEDate where
  year : Nat
  month : Nat
  day : Nat
deriving DecidableEq, Repr

/-- Order-embedding key for dates: lexicographic on (year, month, day).
Valid for month in 1..12 and day in 1..31, which covers every date the
script constructs. -/
def dayKey (d : EEDate) : Nat := d.year * 10000 + d.month * 100 + d.day

/-- Absolute calendar-month index of a date (year*12 + month-1). -/
def monthIndexD (d : EEDate) : Nat := d.year * 12 + (d.month - 1)

/-- Abstract pixel identifier. -/
abbrev Pixel := Nat

/-- A single-band raster: masked pixels carry none. -/
abbrev Raster := Pixel → Option ℚ

/-- A multi-band raster image, addressed by band name. -/
abbrev BandRaster := String → Pixel → Option ℚ

/-- One source image of an ee.ImageCollection: its acquisition date, the
region identifiers its footprint intersects, its metadata properties
(such as CLOUD_COVER), and its named bands. -/
structure EEImage where
  date : EEDate
  regions : List Nat
  props : List (String × ℚ)
  bands : List (String × Raster)

abbrev ImageCollection := List EEImage

/-- The ambient backend environment: the identifier of the externally
supplied aoi geometry, the pixel membership test used by clip, and the
sampling grid chosen by reduceRegion from (geometry, scale, bestEffort,
maxPixels). -/
structure Env where
  aoi : Nat
  inRegion : Nat → Pixel → Bool
  sample : Nat → Nat → Bool → Nat → List Pixel

/-- Date test of filterDate: s inclusive, e exclusive. -/
def dateOK (s e : EEDate) (d : EEDate) : Bool :=
  decide (dayKey s ≤ dayKey d) && decide (dayKey d < dayKey e)

/-- Predicate of ee.ImageCollection.filterDate over the half-open
interval from s (inclusive) to e (exclusive). -/
def datePred (s e : EEDate) (im : EEImage) : Bool :=
  dateOK s e im.date

/-- ee.ImageCollection.filterDate. -/
def filterDate (coll : ImageCollection) (s e : EEDate) : ImageCollection :=
  coll.filter (datePred s e)

/-- Predicate of ee.ImageCollection.filterBounds: the image footprint
intersects the given region. -/
def boundsPred (r : Nat) (im : EEImage) : Bool :=
  im.regions.contains r

/-- ee.ImageCollection.filterBounds. -/
def filterBounds (coll : ImageCollection) (r : Nat) : ImageCollection :=
  coll.filter (boundsPred r)

/-- Property test of filterMetadata with the LESS_THAN operator. -/
def propsLT (key : String) (v : ℚ) (props : List (String × ℚ)) : Bool :=
  match props.find? (fun kv => kv.1 == key) with
  | some kv => decide (kv.2 < v)
  | none => false

/-- Predicate of filterMetadata with the LESS_THAN operator: the image
carries the property and its value is below the threshold. -/
def metaLTPred (key : String) (v : ℚ) (im : EEImage) : Bool :=
  propsLT key v im.props

/-- ee.ImageCollection.filterMetadata(key, LESS_THAN, v). -/
def filterMetadataLT (coll : ImageCollection) (key : String) (v : ℚ) : ImageCollection :=
  coll.filter (metaLTPred key v)

/-- ee.ImageCollection.select(band): keep only the named band of every
image in the collection. -/
def selectIC (coll : ImageCollection) (b : String) : ImageCollection :=
  coll.map (fun im => { im with bands := im.bands.filter (fun kv => kv.1 == b) })

/-- Value of a named band of an image at a pixel; none when the band is
absent or the pixel is masked. -/
def imgValue (im : EEImage) (b : String) (p : Pixel) : Option ℚ :=
  match im.bands.find? (fun kv => kv.1 == b) with
  | some kv => kv.2 p
  | none => none

/-- The temporal/spatial reducer kinds the script uses. -/
inductive ReducerKind
  | mean
  | median
  | max
deriving DecidableEq, Repr

/-- Insertion into a sorted list of rationals (for the median reducer). -/
def insertQ (x : ℚ) : List ℚ → List ℚ
  | [] => [x]
  | y :: ys => if x ≤ y then x :: y :: ys else y :: insertQ x ys

/-- Sort a list of rationals. -/
def sortQ : List ℚ → List ℚ := List.foldr insertQ []

/-- Maximum of a list of rationals, none when empty. -/
def listMax : List ℚ → Option ℚ
  | [] => none
  | x :: xs => some (xs.foldl (fun a b => if a ≤ b then b else a) x)

/-- Reduce a list of unmasked values with the given reducer kind.  An
empty list (no contributing imagery or pixels) yields none, never a
number. -/
def reduceVals (k : ReducerKind) (vs : List ℚ) : Option ℚ :=
  match vs with
  | [] => none
  | _ =>
    match k with
    | .mean => some (vs.sum / vs.length)
    | .median =>
      let s := sortQ vs
      if vs.length % 2 = 1 then some (s.getD (vs.length / 2) 0)
      else some ((s.getD (vs.length / 2 - 1) 0 + s.getD (vs.length / 2) 0) / 2)
    | .max => listMax vs

/-- The unmasked values a collection contributes at one band and pixel. -/
def pixelVals (coll : ImageCollection) (b : String) (p : Pixel) : List ℚ :=
  coll.filterMap (fun im => imgValue im b p)

/-- Pixel-wise temporal reduction of a collection into one image:
ee.ImageCollection.mean / .median / .max. -/
def icReduceImg (k : ReducerKind) (coll : ImageCollection) : BandRaster :=
  fun b p => reduceVals k (pixelVals coll b p)

/-- ee.Image.select(band) on a composited image. -/
def selectImg (b : String) (img : BandRaster) : BandRaster :=
  fun b' p => if b' == b then img b' p else none

/-- ee.Image.clip(region): mask everything outside the region. -/
def clipImg (env : Env) (r : Nat) (img : BandRaster) : BandRaster :=
  fun b p => if env.inRegion r p then img b p else none

/-- The argument dictionary of ee.Image.reduceRegion as the script
builds it. -/
structure ReduceArgs where
  reducer : ReducerKind
  geometry : Nat
  scale : Nat
  bestEffort : Bool
  maxPixels : Nat

/-- ee.Image.reduceRegion followed by .get(band): sample the region at
the requested scale under the bestEffort/maxPixels policy, reduce the
unmasked values, and extract the result for the band.  When nothing
contributes the result is none (null), never a number. -/
def reduceRegionGet (env : Env) (img : BandRaster) (args : ReduceArgs) (b : String) : Option ℚ :=
  reduceVals args.reducer
    (((env.sample args.geometry args.scale args.bestEffort args.maxPixels).filterMap (img b)))

/-! ## Part 1 of the script: the CO monthly time series -/

/-- Script constant timeSeriesStart = 2019-01-01. -/
def timeSeriesStart : EEDate := ⟨2019, 1, 1⟩

/-- Script constant timeSeriesEnd = 2024-12-31. -/
def timeSeriesEnd : EEDate := ⟨2024, 12, 31⟩

/-- Script constant fireStart = 2019-12-15. -/
def fireStart : EEDate := ⟨2019, 12, 15⟩

/-- Script constant fireEnd = 2020-01-10. -/
def fireEnd : EEDate := ⟨2020, 1, 10⟩

/-- co_collection: the CO source collection filtered to the aoi bounds
and to the timeSeriesStart..timeSeriesEnd range, exactly as in the
script. -/
def co_collection (env : Env) (co : ImageCollection) : ImageCollection :=
  filterDate (filterBounds co env.aoi) timeSeriesStart timeSeriesEnd

/-- The month-index list ee.List.sequence(0, 23). -/
def months : List Nat := List.range 24

/-- Year of bucket m in the script closure: floor(m/12) + 2019. -/
def bucketYear (m : Nat) : Nat := m / 12 + 2019

/-- Month-of-year of bucket m in the script closure: (m mod 12) + 1. -/
def bucketMonth (m : Nat) : Nat := m % 12 + 1

/-- monthStart of bucket m: ee.Date.fromYMD(year, monthOfYear, 1). -/
def monthStartDate (m : Nat) : EEDate := ⟨bucketYear m, bucketMonth m, 1⟩

/-- ee.Date.advance(1, month) restricted to first-of-month dates, the
only dates the script advances. -/
def advanceOneMonth (d : EEDate) : EEDate :=
  if d.month = 12 then ⟨d.year + 1, 1, d.day⟩ else ⟨d.year, d.month + 1, d.day⟩

/-- monthEnd of bucket m: monthStart advanced by one calendar month. -/
def monthEndDate (m : Nat) : EEDate := advanceOneMonth (monthStartDate m)

/-- The reduceRegion arguments of the monthly aggregation: mean reducer,
the aoi geometry, scale 5000 m, bestEffort true, maxPixels 1e8. -/
def monthlyReduceArgs (env : Env) : ReduceArgs :=
  ⟨.mean, env.aoi, 5000, true, 100000000⟩

/-- Body of the monthlyCO closure for one month index: filter the CO
collection to the bucket window, take the temporal mean, select the CO
band, and spatially reduce it over the aoi. -/
def monthlyCOValue (env : Env) (co : ImageCollection) (m : Nat) : Option ℚ :=
  let filtered := filterDate (co_collection env co) (monthStartDate m) (monthEndDate m)
  let meanCO := selectImg "CO_column_number_density" (icReduceImg .mean filtered)
  reduceRegionGet env meanCO (monthlyReduceArgs env) "CO_column_number_density"

/-- monthlyCO: the list of 24 monthly CO samples. -/
def monthlyCO (env : Env) (co : ImageCollection) : List (Option ℚ) :=
  months.map (monthlyCOValue env co)

/-- The format specifier %02d applied to a month number. -/
def fmtPct02d (n : Nat) : String :=
  if n < 10 then "0" ++ toString n else toString n

/-- Label of bucket m: year formatted with %d, a dash, and the month
formatted with %02d. -/
def monthLabel (m : Nat) : String :=
  toString (bucketYear m) ++ "-" ++ fmtPct02d (bucketMonth m)

/-- monthLabels: the list of 24 bucket labels. -/
def monthLabels : List String := months.map monthLabel

/-- One charted feature: the bucket label and the (nullable) sample
value, as built by ee.Feature(null, propertyDict) in the script. -/
structure ChartFeature where
  month : String
  value : Option ℚ
deriving DecidableEq, Repr

/-- monthlyCO_dict: ee.Dictionary.fromLists(monthLabels, monthlyCO).
The labels are pairwise strictly increasing strings (proved below), so
the key-sorted dictionary order of Earth Engine coincides with the zip
order used here. -/
def monthlyCO_dict (env : Env) (co : ImageCollection) : List (String × Option ℚ) :=
  monthLabels.zip (monthlyCO env co)

/-- co_features followed by .values(): the feature sequence handed to
the charting layer, one feature per bucket carrying the label and the
nullable value. -/
def co_features (env : Env) (co : ImageCollection) : List ChartFeature :=
  (monthlyCO_dict env co).map (fun kv => ⟨kv.1, kv.2⟩)

/-! ## Part 2 of the script: the NO2 monthly time series -/

/-- no2_collection: the NO2 source collection filtered to the aoi bounds
and the time-series range, exactly as in the script. -/
def no2_collection (env : Env) (no2 : ImageCollection) : ImageCollection :=
  filterDate (filterBounds no2 env.aoi) timeSeriesStart timeSeriesEnd

/-- Body of the monthlyNO2 closure for one month index. -/
def monthlyNO2Value (env : Env) (no2 : ImageCollection) (m : Nat) : Option ℚ :=
  let filtered := filterDate (no2_collection env no2) (monthStartDate m) (monthEndDate m)
  let meanNO2 := selectImg "NO2_column_number_density" (icReduceImg .mean filtered)
  reduceRegionGet env meanNO2 (monthlyReduceArgs env) "NO2_column_number_density"

/-- monthlyNO2: the list of 24 monthly NO2 samples. -/
def monthlyNO2 (env : Env) (no2 : ImageCollection) : List (Option ℚ) :=
  months.map (monthlyNO2Value env no2)

/-- monthlyNO2_dict: ee.Dictionary.fromLists(monthLabels, monthlyNO2). -/
def monthlyNO2_dict (env : Env) (no2 : ImageCollection) : List (String × Option ℚ) :=
  monthLabels.zip (monthlyNO2 env no2)

/-- no2_features followed by .values(): the NO2 feature sequence handed
to the charting layer. -/
def no2_features (env : Env) (no2 : ImageCollection) : List ChartFeature :=
  (monthlyNO2_dict env no2).map (fun kv => ⟨kv.1, kv.2⟩)

/-! ## Parts 3 to 5 of the script: fire-period composites of CO, NO2 and
the aerosol index -/

/-- collection_CO_fire: select the CO band, filter to the roi bounds and
the fire window, and take the temporal mean. -/
def collection_CO_fire (env : Env) (nrtiCO : ImageCollection) : BandRaster :=
  icReduceImg .mean
    (filterDate (filterBounds (selectIC nrtiCO "CO_column_number_density") env.aoi)
      fireStart fireEnd)

/-- clip_CO: the CO fire-period composite clipped to the roi. -/
def clip_CO (env : Env) (nrtiCO : ImageCollection) : BandRaster :=
  clipImg env env.aoi (collection_CO_fire env nrtiCO)

/-- collection_NO2_fire: select the NO2 band, filter to the roi bounds
and the fire window, and take the temporal mean. -/
def collection_NO2_fire (env : Env) (nrtiNO2 : ImageCollection) : BandRaster :=
  icReduceImg .mean
    (filterDate (filterBounds (selectIC nrtiNO2 "NO2_column_number_density") env.aoi)
      fireStart fireEnd)

/-- clip_NO2: the NO2 fire-period composite clipped to the roi. -/
def clip_NO2 (env : Env) (nrtiNO2 : ImageCollection) : BandRaster :=
  clipImg env env.aoi (collection_NO2_fire env nrtiNO2)

/-- The aerosol window start, which the script fixes at 2019-12-01. -/
def aerStart : EEDate := ⟨2019, 12, 1⟩

/-- sentinel5p_aer: select the aerosol-index band, filter to the aerosol
window and the geometry bounds, and take the temporal mean. -/
def sentinel5p_aer (env : Env) (aer : ImageCollection) : BandRaster :=
  icReduceImg .mean
    (filterBounds (filterDate (selectIC aer "absorbing_aerosol_index") aerStart fireEnd)
      env.aoi)

/-- sent_aer: the aerosol composite clipped to the geometry. -/
def sent_aer (env : Env) (aer : ImageCollection) : BandRaster :=
  clipImg env env.aoi (sentinel5p_aer env aer)

/-! ## Part 6 of the script: Landsat 8 fire imagery -/

/-- landsatFire: Landsat 8 filtered to the fire window, the roi bounds,
and cloud cover below 30 percent. -/
def landsatFire (env : Env) (l8 : ImageCollection) : ImageCollection :=
  filterMetadataLT (filterBounds (filterDate l8 fireStart fireEnd) env.aoi) "CLOUD_COVER" 30

/-- Membership in the band group of the anchored pattern SR_B. (the
letters SR_B followed by exactly one character). -/
def isOpticalBand (b : String) : Bool :=
  match b.toList with
  | ['S', 'R', '_', 'B', _] => true
  | _ => false

/-- Membership in the band group of the anchored pattern ST_B.* (the
letters ST_B followed by any suffix). -/
def isThermalBand (b : String) : Bool :=
  match b.toList with
  | 'S' :: 'T' :: '_' :: 'B' :: _ => true
  | _ => false

/-- The optical surface-reflectance scale constant 0.0000275. -/
def opticalScale : ℚ := 275 / 10000000

/-- The optical surface-reflectance offset constant -0.2. -/
def opticalOffset : ℚ := -(2 / 10)

/-- The thermal scale constant 0.00341802. -/
def thermalScale : ℚ := 341802 / 100000000

/-- The thermal offset constant 149.0. -/
def thermalOffset : ℚ := 149

/-- applyScaleFactors: rescale every optical band with the optical
constants and every thermal band with the thermal constants, overwriting
the raw bands in place (addBands with overwrite true). -/
def applyScaleFactors (im : EEImage) : EEImage :=
  { im with
    bands := im.bands.map (fun kv =>
      if isOpticalBand kv.1 then
        (kv.1, fun p => (kv.2 p).map (fun v => v * opticalScale + opticalOffset))
      else if isThermalBand kv.1 then
        (kv.1, fun p => (kv.2 p).map (fun v => v * thermalScale + thermalOffset))
      else kv) }

/-- landsatFireScaled: the filtered Landsat collection with the scale
factors applied to every image. -/
def landsatFireScaled (env : Env) (l8 : ImageCollection) : ImageCollection :=
  (landsatFire env l8).map applyScaleFactors

/-- The composite behind both Landsat map layers: the median of the
scaled collection clipped to the roi (the layers then choose display
bands from it). -/
def landsatMedianComposite (env : Env) (l8 : ImageCollection) : BandRaster :=
  clipImg env env.aoi (icReduceImg .median (landsatFireScaled env l8))

/-! ## Part 7 of the script: MODIS fire radiative power -/

/-- modisFire: filter to the fire window, select MaxFRP, filter to the
roi bounds, and take the temporal maximum. -/
def modisFire (env : Env) (modis : ImageCollection) : BandRaster :=
  icReduceImg .max
    (filterBounds (selectIC (filterDate modis fireStart fireEnd) "MaxFRP") env.aoi)

/-- modisFire_roi: the FRP composite clipped to the roi. -/
def modisFire_roi (env : Env) (modis : ImageCollection) : BandRaster :=
  clipImg env env.aoi (modisFire env modis)

/-! ## Spec-side contracts, for the refinement claims

The next two definitions are written from the words of the specification
(sections 4.1 and 4.2), to be compared with the pipelines embedded from
the script above. -/

/-- Modelled from the spec, section 4.1: for one bucket, filter the
source collection to the bucket sub-window and the region, compute a
temporal mean composite, select the requested band, and spatially reduce
it over the region with an areal mean at scale 5000, a pixel ceiling of
1e8 and the best-effort flag. -/
def aggregateSpec (env : Env) (band : String) (coll : ImageCollection)
    (bs be : EEDate) : Option ℚ :=
  let filtered := filterBounds (filterDate coll bs be) env.aoi
  reduceRegionGet env (selectImg band (icReduceImg .mean filtered))
    ⟨.mean, env.aoi, 5000, true, 100000000⟩ band

/-- Modelled from the spec, section 4.2: filter the source collection by
region and window, apply the chosen temporal reducer pixel-wise, select
the band, and clip to the region. -/
def compositeSpec (env : Env) (k : ReducerKind) (band : String)
    (ws we : EEDate) (coll : ImageCollection) : BandRaster :=
  clipImg env env.aoi
    (selectImg band (icReduceImg k (filterDate (filterBounds coll env.aoi) ws we)))

/-- The integer bucket-count formula of the spec, section 4.1. -/
def bucketCountFormula (s e : EEDate) : Int :=
  ((e.year : Int) * 12 + e.month) - ((s.year : Int) * 12 + s.month)

/-! ## General list lemmas used by the proofs -/

lemma filter_absorb {α : Type} (P Q : α → Bool) (h : ∀ a, P a = true → Q a = true) :
    ∀ l : List α, l.filter P = (l.filter Q).filter P := by
  intro l
  induction l with
  | nil => rfl
  | cons a t ih =>
    cases hPa : P a with
    | true =>
      have hQa := h a hPa
      simp [List.filter_cons, hPa, hQa, ih]
    | false =>
      cases hQa : Q a with
      | true => simp [List.filter_cons, hPa, hQa, ih]
      | false => simp [List.filter_cons, hPa, hQa, ih]

lemma filter_swap {α : Type} (p q : α → Bool) (l : List α) :
    (l.filter p).filter q = (l.filter q).filter p := by
  simp only [List.filter_filter]
  apply List.filter_congr
  intro a _
  exact Bool.and_comm (q a) (p a)

lemma filter_map_invariant {α : Type} (f : α → α) (p : α → Bool)
    (hf : ∀ a, p (f a) = p a) (l : List α) :
    (l.map f).filter p = (l.filter p).map f := by
  rw [List.filter_map]
  exact congrArg (List.map f) (List.filter_congr (fun a _ => hf a))

lemma find?_filter_same {α : Type} (q : α → Bool) :
    ∀ l : List α, (l.filter q).find? q = l.find? q := by
  intro l
  induction l with
  | nil => rfl
  | cons a t ih =>
    cases hqa : q a with
    | true => simp [List.filter_cons, List.find?_cons, hqa]
    | false => simp [List.filter_cons, List.find?_cons, hqa, ih]

lemma filterMap_const_none {α β : Type} :
    ∀ l : List α, l.filterMap (fun _ => (none : Option β)) = [] := by
  intro l
  induction l with
  | nil => rfl
  | cons a t ih => simp [List.filterMap_cons, ih]

lemma filterMap_congr_fun {α β : Type} (f g : α → Option β) (h : ∀ a, f a = g a)
    (l : List α) : l.filterMap f = l.filterMap g := by
  rw [funext h]

lemma getD_range_map {α : Type} (f : Nat → α) (d : α) (n i : Nat) (h : i < n) :
    ((List.range n).map f).getD i d = f i := by
  simp [List.getD_eq_getElem?_getD, List.getElem?_map, List.getElem?_range, h]

/-! ## Domain lemmas about the embedded pipelines -/

lemma month_window_keys :
    ∀ m, m < 24 →
      20190101 ≤ dayKey (monthStartDate m) ∧ dayKey (monthEndDate m) ≤ 20210101 := by
  decide

lemma datePred_mono (m : Nat) (hm : m < 24) (im : EEImage)
    (h : datePred (monthStartDate m) (monthEndDate m) im = true) :
    datePred timeSeriesStart timeSeriesEnd im = true := by
  unfold datePred dateOK at h ⊢
  rw [Bool.and_eq_true, decide_eq_true_iff, decide_eq_true_iff] at h ⊢
  obtain ⟨h1, h2⟩ := h
  obtain ⟨k1, k2⟩ := month_window_keys m hm
  constructor
  · calc dayKey timeSeriesStart ≤ 20190101 := by norm_num [timeSeriesStart, dayKey]
      _ ≤ dayKey (monthStartDate m) := k1
      _ ≤ dayKey im.date := h1
  · calc dayKey im.date < dayKey (monthEndDate m) := h2
      _ ≤ 20210101 := k2
      _ ≤ dayKey timeSeriesEnd := by norm_num [timeSeriesEnd, dayKey]

/-- Images selected by a monthly bucket filter are dated before the
2021-01-01 cutoff. -/
def beforeCutoff (im : EEImage) : Bool := decide (dayKey im.date < 20210101)

lemma datePred_cutoff (m : Nat) (hm : m < 24) (im : EEImage)
    (h : datePred (monthStartDate m) (monthEndDate m) im = true) :
    beforeCutoff im = true := by
  unfold datePred dateOK at h
  rw [Bool.and_eq_true, decide_eq_true_iff, decide_eq_true_iff] at h
  unfold beforeCutoff
  rw [decide_eq_true_iff]
  exact lt_of_lt_of_le h.2 (month_window_keys m hm).2

lemma monthly_filter_eq (env : Env) (c : ImageCollection) (m : Nat) (hm : m < 24) :
    filterDate (co_collection env c) (monthStartDate m) (monthEndDate m)
      = filterBounds (filterDate c (monthStartDate m) (monthEndDate m)) env.aoi := by
  unfold co_collection filterDate filterBounds
  simp only [List.filter_filter]
  apply List.filter_congr
  intro a _
  cases hd : datePred (monthStartDate m) (monthEndDate m) a with
  | false => simp [hd]
  | true => simp [hd, datePred_mono m hm a hd]

lemma monthly_filter_cutoff (env : Env) (c1 c2 : ImageCollection) (m : Nat) (hm : m < 24)
    (h : c1.filter beforeCutoff = c2.filter beforeCutoff) :
    filterDate (co_collection env c1) (monthStartDate m) (monthEndDate m)
      = filterDate (co_collection env c2) (monthStartDate m) (monthEndDate m) := by
  unfold co_collection filterDate filterBounds
  simp only [List.filter_filter]
  have hPQ : ∀ a : EEImage,
      (datePred (monthStartDate m) (monthEndDate m) a
        && (datePred timeSeriesStart timeSeriesEnd a && boundsPred env.aoi a)) = true →
      beforeCutoff a = true := by
    intro a ha
    rw [Bool.and_eq_true] at ha
    exact datePred_cutoff m hm a ha.1
  rw [filter_absorb _ beforeCutoff hPQ c1, filter_absorb _ beforeCutoff hPQ c2, h]

lemma datePred_date_eq (s e : EEDate) (im im' : EEImage) (h : im'.date = im.date) :
    datePred s e im' = datePred s e im := by
  unfold datePred
  rw [h]

lemma boundsPred_regions_eq (r : Nat) (im im' : EEImage) (h : im'.regions = im.regions) :
    boundsPred r im' = boundsPred r im := by
  unfold boundsPred
  rw [h]

lemma metaLTPred_props_eq (k : String) (v : ℚ) (im im' : EEImage)
    (h : im'.props = im.props) : metaLTPred k v im' = metaLTPred k v im := by
  unfold metaLTPred
  rw [h]

lemma selectIC_filterDate (c : ImageCollection) (b : String) (s e : EEDate) :
    filterDate (selectIC c b) s e = selectIC (filterDate c s e) b := by
  unfold filterDate selectIC
  exact filter_map_invariant
    (fun im => { im with bands := im.bands.filter (fun kv => kv.1 == b) })
    (datePred s e) (fun a => datePred_date_eq s e a _ rfl) c

lemma selectIC_filterBounds (c : ImageCollection) (b : String) (r : Nat) :
    filterBounds (selectIC c b) r = selectIC (filterBounds c r) b := by
  unfold filterBounds selectIC
  exact filter_map_invariant
    (fun im => { im with bands := im.bands.filter (fun kv => kv.1 == b) })
    (boundsPred r) (fun a => boundsPred_regions_eq r a _ rfl) c

lemma scaled_filterDate (c : ImageCollection) (s e : EEDate) :
    filterDate (c.map applyScaleFactors) s e = (filterDate c s e).map applyScaleFactors := by
  unfold filterDate
  exact filter_map_invariant applyScaleFactors (datePred s e)
    (fun a => datePred_date_eq s e a _ rfl) c

lemma scaled_filterBounds (c : ImageCollection) (r : Nat) :
    filterBounds (c.map applyScaleFactors) r = (filterBounds c r).map applyScaleFactors := by
  unfold filterBounds
  exact filter_map_invariant applyScaleFactors (boundsPred r)
    (fun a => boundsPred_regions_eq r a _ rfl) c

lemma pixelVals_selectIC (c : ImageCollection) (b : String) (p : Pixel) :
    pixelVals (selectIC c b) b p = pixelVals c b p := by
  unfold pixelVals selectIC
  rw [List.filterMap_map]
  apply filterMap_congr_fun
  intro im
  show imgValue { im with bands := im.bands.filter (fun kv => kv.1 == b) } b p
      = imgValue im b p
  unfold imgValue
  rw [find?_filter_same]

lemma filterDate_filterBounds_swap (c : ImageCollection) (s e : EEDate) (r : Nat) :
    filterDate (filterBounds c r) s e = filterBounds (filterDate c s e) r := by
  unfold filterDate filterBounds
  exact filter_swap _ _ c

lemma filterMetadataLT_filterBounds_swap (c : ImageCollection) (k : String) (v : ℚ) (r : Nat) :
    filterMetadataLT (filterBounds c r) k v = filterBounds (filterMetadataLT c k v) r := by
  unfold filterMetadataLT filterBounds
  exact filter_swap _ _ c

lemma filterMetadataLT_filterDate_swap (c : ImageCollection) (k : String) (v : ℚ)
    (s e : EEDate) :
    filterMetadataLT (filterDate c s e) k v = filterDate (filterMetadataLT c k v) s e := by
  unfold filterMetadataLT filterDate
  exact filter_swap _ _ c

lemma reduceVals_nil (k : ReducerKind) : reduceVals k [] = none := rfl

lemma reduceRegionGet_of_none (env : Env) (args : ReduceArgs) (b : String)
    (img : BandRaster) (h : ∀ p, img b p = none) :
    reduceRegionGet env img args b = none := by
  unfold reduceRegionGet
  rw [filterMap_congr_fun (img b) (fun _ => none) h, filterMap_const_none, reduceVals_nil]

lemma co_features_eq (env : Env) (co : ImageCollection) :
    co_features env co
      = months.map (fun m => ⟨monthLabel m, monthlyCOValue env co m⟩) := by
  unfold co_features monthlyCO_dict monthLabels monthlyCO
  rw [List.zip_map', List.map_map]
  exact List.map_congr_left (fun a _ => rfl)

lemma no2_features_eq (env : Env) (no2 : ImageCollection) :
    no2_features env no2
      = months.map (fun m => ⟨monthLabel m, monthlyNO2Value env no2 m⟩) := by
  unfold no2_features monthlyNO2_dict monthLabels monthlyNO2
  rw [List.zip_map', List.map_map]
  exact List.map_congr_left (fun a _ => rfl)

/-- Strict lexicographic order on character sequences, by code point. -/
def lexLtB : List Char → List Char → Bool
  | [], [] => false
  | [], _ :: _ => true
  | _ :: _, [] => false
  | a :: as, b :: bs =>
    if a.val < b.val then true
    else if a.val = b.val then lexLtB as bs
    else false

/-- The 24 bucket labels are strictly increasing in lexicographic
order, so the key-sorted iteration order of ee.Dictionary coincides with
the zip order used in the embedding of fromLists. -/
lemma monthLabels_strictly_sorted :
    List.Pairwise (fun a b : String => lexLtB a.toList b.toList = true) monthLabels := by
  decide

/-! ## Claim theorems -/

/-- C3: for the monthly time series, the aggregator produces exactly 24
buckets in chronological order, the first labelled 2019-01 and the last
labelled 2020-12. -/
theorem monthly_series_has_24_chronological_buckets :
    monthLabels.length = 24 ∧
    monthLabels.head? = some "2019-01" ∧
    monthLabels.getLast? = some "2020-12" ∧
    List.Pairwise (· < ·) (months.map (fun m => monthIndexD (monthStartDate m))) := by
  decide

/-- C4 counterexample: for the time-series window the script actually
configures (2019-01-01 to 2024-12-31), the spec formula gives 71, while
the aggregator always produces the 24 buckets of the months list. -/
theorem bucket_count_formula_counterexample :
    bucketCountFormula timeSeriesStart timeSeriesEnd = 71 ∧
    months.length = 24 ∧
    (months.length : Int) ≠ bucketCountFormula timeSeriesStart timeSeriesEnd := by
  decide

/-- C4 amended: the aggregator produces a fixed list of 24 monthly
buckets spanning 2019-01-01 to 2021-01-01 exclusive; the integer formula
applied to that spanned range yields exactly that count, but applied to
the configured collection-filter window it does not. -/
theorem bucket_count_is_fixed_24 :
    months.length = 24 ∧
    monthStartDate 0 = ⟨2019, 1, 1⟩ ∧
    monthEndDate 23 = ⟨2021, 1, 1⟩ ∧
    bucketCountFormula (monthStartDate 0) (monthEndDate 23) = 24 := by
  decide

/-- C5: every generated bucket label is a YYYY-MM string with a
four-digit year, a dash, and the month zero-padded to exactly two
digits; bucket (2019, 12) at index 11 is labelled 2019-12 and bucket
(2020, 1) at index 12 is labelled 2020-01. -/
theorem month_label_format :
    monthLabels.length = 24 ∧
    (monthLabels.all (fun s =>
      (s.toList.length == 7) &&
      ((s.toList.take 4).all Char.isDigit) &&
      (s.toList.getD 4 ' ' == '-') &&
      ((s.toList.drop 5).all Char.isDigit) &&
      ((s.toList.drop 5).length == 2))) = true ∧
    bucketYear 11 = 2019 ∧ bucketMonth 11 = 12 ∧ monthLabels.getD 11 "" = "2019-12" ∧
    bucketYear 12 = 2020 ∧ bucketMonth 12 = 1 ∧ monthLabels.getD 12 "" = "2020-01" := by
  decide

/-- C6: the 24 monthly buckets form an exact partition: each bucket end
is its start advanced by one calendar month, each bucket end equals the
next bucket start, bucket i covers exactly absolute calendar month
24228 + i, and the sequence spans 2019-01-01 to 2021-01-01. -/
theorem monthly_buckets_partition (i : Nat) (h : i < 24) :
    monthEndDate i = advanceOneMonth (monthStartDate i) ∧
    monthEndDate i = monthStartDate (i + 1) ∧
    monthIndexD (monthStartDate i) = 24228 + i ∧
    monthIndexD (monthEndDate i) = 24229 + i ∧
    monthStartDate 0 = ⟨2019, 1, 1⟩ ∧
    monthEndDate 23 = ⟨2021, 1, 1⟩ := by
  revert i
  decide

theorem monthly_buckets_partition_witness :
    (0 : Nat) < 24 ∧
    (monthEndDate 0 = advanceOneMonth (monthStartDate 0) ∧
     monthEndDate 0 = monthStartDate 1 ∧
     monthIndexD (monthStartDate 0) = 24228 + 0 ∧
     monthIndexD (monthEndDate 0) = 24229 + 0 ∧
     monthStartDate 0 = ⟨2019, 1, 1⟩ ∧
     monthEndDate 23 = ⟨2021, 1, 1⟩) :=
  ⟨by decide, monthly_buckets_partition 0 (by decide)⟩

/-- A Landsat image whose optical band SR_B4 is constant 20000 raw
digital numbers and whose thermal band ST_B10 is constant 14000. -/
def constLandsatImage : EEImage :=
  ⟨⟨2019, 12, 20⟩, [0], [("CLOUD_COVER", 10)],
    [("SR_B4", fun _ => some 20000), ("ST_B10", fun _ => some 14000)]⟩

/-- C8: applyScaleFactors rescales an optical band of constant raw
value 20000 to the constant value 0.35 = 20000 * 0.0000275 - 0.2 at
every pixel, while thermal bands are rescaled with their own, different
scale and offset constants. -/
theorem optical_rescale_yields_035 (p : Pixel) :
    imgValue (applyScaleFactors constLandsatImage) "SR_B4" p
      = some (20000 * opticalScale + opticalOffset) ∧
    (20000 * opticalScale + opticalOffset : ℚ) = 35 / 100 ∧
    imgValue (applyScaleFactors constLandsatImage) "ST_B10" p
      = some (14000 * thermalScale + thermalOffset) ∧
    opticalScale ≠ thermalScale ∧
    opticalOffset ≠ thermalOffset := by
  refine ⟨rfl, by norm_num [opticalScale, opticalOffset], rfl, ?_, ?_⟩
  · norm_num [opticalScale, thermalScale]
  · norm_num [opticalOffset, thermalOffset]

/-- C1: when a monthly bucket filter selects no imagery, the sample for
that bucket is null (none), not zero, and the feature list handed to the
charting layer still contains a feature for that bucket, carrying its
label and the unchanged null value. -/
theorem empty_bucket_null_preserved (env : Env) (co : ImageCollection) (m : Nat)
    (hm : m < 24)
    (h : filterDate (co_collection env co) (monthStartDate m) (monthEndDate m) = []) :
    monthlyCOValue env co m = none ∧
    monthlyCOValue env co m ≠ some 0 ∧
    (co_features env co).length = 24 ∧
    (co_features env co).getD m ⟨"", some 0⟩ = ⟨monthLabel m, none⟩ := by
  have hval : monthlyCOValue env co m = none := by
    unfold monthlyCOValue
    rw [h]
    apply reduceRegionGet_of_none
    intro p
    simp [selectImg, icReduceImg, pixelVals, reduceVals]
  refine ⟨hval, by rw [hval]; exact fun hc => Option.noConfusion hc, ?_, ?_⟩
  · rw [co_features_eq]
    simp [months]
  · rw [co_features_eq]
    unfold months
    rw [getD_range_map _ _ 24 m hm, hval]

/-- Concrete environment for the witnesses. -/
def envW : Env := ⟨0, fun _ _ => true, fun _ _ _ _ => [0]⟩

theorem empty_bucket_null_preserved_witness :
    ((0 : Nat) < 24 ∧
     filterDate (co_collection envW []) (monthStartDate 0) (monthEndDate 0) = []) ∧
    (monthlyCOValue envW [] 0 = none ∧
     monthlyCOValue envW [] 0 ≠ some 0 ∧
     (co_features envW []).length = 24 ∧
     (co_features envW []).getD 0 ⟨"", some 0⟩ = ⟨monthLabel 0, none⟩) :=
  ⟨⟨by decide, rfl⟩, empty_bucket_null_preserved envW [] 0 (by decide) rfl⟩

lemma no2_collection_eq_co (env : Env) (c : ImageCollection) :
    no2_collection env c = co_collection env c := rfl

lemma select_first_composite_eq (env : Env) (k : ReducerKind) (c : ImageCollection)
    (b : String) (s e : EEDate) (p : Pixel) :
    clipImg env env.aoi
      (icReduceImg k (filterDate (filterBounds (selectIC c b) env.aoi) s e)) b p
      = compositeSpec env k b s e c b p := by
  unfold compositeSpec clipImg
  cases hr : env.inRegion env.aoi p with
  | false => simp [hr]
  | true =>
    simp only [hr, if_true]
    rw [selectIC_filterBounds, selectIC_filterDate]
    simp only [selectImg, icReduceImg, beq_self_eq_true, if_true]
    rw [pixelVals_selectIC]

lemma aer_composite_eq (env : Env) (c : ImageCollection) (p : Pixel) :
    sent_aer env c "absorbing_aerosol_index" p
      = compositeSpec env .mean "absorbing_aerosol_index" aerStart fireEnd c
          "absorbing_aerosol_index" p := by
  unfold sent_aer sentinel5p_aer compositeSpec clipImg
  cases hr : env.inRegion env.aoi p with
  | false => simp [hr]
  | true =>
    simp only [hr, if_true]
    rw [selectIC_filterDate, selectIC_filterBounds, filterDate_filterBounds_swap]
    simp only [selectImg, icReduceImg, beq_self_eq_true, if_true]
    rw [pixelVals_selectIC]

lemma modis_composite_eq (env : Env) (c : ImageCollection) (p : Pixel) :
    modisFire_roi env c "MaxFRP" p
      = compositeSpec env .max "MaxFRP" fireStart fireEnd c "MaxFRP" p := by
  unfold modisFire_roi modisFire compositeSpec clipImg
  cases hr : env.inRegion env.aoi p with
  | false => simp [hr]
  | true =>
    simp only [hr, if_true]
    rw [selectIC_filterBounds, filterDate_filterBounds_swap]
    simp only [selectImg, icReduceImg, beq_self_eq_true, if_true]
    rw [pixelVals_selectIC]

lemma landsat_composite_eq (env : Env) (c : ImageCollection) (b : String) (p : Pixel) :
    landsatMedianComposite env c b p
      = compositeSpec env .median b fireStart fireEnd
          ((filterMetadataLT c "CLOUD_COVER" 30).map applyScaleFactors) b p := by
  unfold landsatMedianComposite landsatFireScaled landsatFire compositeSpec clipImg
  cases hr : env.inRegion env.aoi p with
  | false => simp [hr]
  | true =>
    simp only [hr, if_true]
    rw [scaled_filterBounds, scaled_filterDate,
      filterMetadataLT_filterBounds_swap, filterMetadataLT_filterDate_swap,
      filterDate_filterBounds_swap]
    simp only [selectImg, icReduceImg, beq_self_eq_true, if_true]

/-- A Landsat image with constant optical value 20000, inside the fire
window, the region and the cloud threshold. -/
def landsatImgA : EEImage :=
  ⟨⟨2019, 12, 20⟩, [0], [("CLOUD_COVER", 10)], [("SR_B4", fun _ => some 20000)]⟩

/-- A Landsat image with constant optical value 40000, inside the fire
window, the region and the cloud threshold. -/
def landsatImgC : EEImage :=
  ⟨⟨2019, 12, 21⟩, [0], [("CLOUD_COVER", 10)], [("SR_B4", fun _ => some 40000)]⟩

/-- A concrete three-image Landsat collection on which median and mean
composites disagree. -/
def landsatCollW : ImageCollection := [landsatImgA, landsatImgA, landsatImgC]

/-- C2 counterexample: the multispectral display composite of the script
is not a mean composite.  On a concrete three-image collection the
display composite yields the median 0.35 of the scaled values
0.35, 0.35, 0.9, while the mean temporal reducer yields 8/15. -/
theorem reflectance_composite_not_mean :
    landsatMedianComposite envW landsatCollW "SR_B4" 0 = some (35 / 100) ∧
    clipImg envW envW.aoi (icReduceImg .mean (landsatFireScaled envW landsatCollW))
      "SR_B4" 0 = some (8 / 15) ∧
    (some (35 / 100) : Option ℚ) ≠ some (8 / 15) := by
  have hx : (20000 * opticalScale + opticalOffset : ℚ) = 7 / 20 := by
    norm_num [opticalScale, opticalOffset]
  have hy : (40000 * opticalScale + opticalOffset : ℚ) = 9 / 10 := by
    norm_num [opticalScale, opticalOffset]
  have h1 : pixelVals (landsatFireScaled envW landsatCollW) "SR_B4" 0
      = [20000 * opticalScale + opticalOffset,
         20000 * opticalScale + opticalOffset,
         40000 * opticalScale + opticalOffset] := rfl
  refine ⟨?_, ?_, ?_⟩
  · show reduceVals .median (pixelVals (landsatFireScaled envW landsatCollW) "SR_B4" 0)
      = some (35 / 100)
    rw [h1, hx, hy]
    norm_num [reduceVals, sortQ, insertQ]
  · show reduceVals .mean (pixelVals (landsatFireScaled envW landsatCollW) "SR_B4" 0)
      = some (8 / 15)
    rw [h1, hx, hy]
    norm_num [reduceVals]
  · intro hEq
    rw [Option.some.injEq] at hEq
    norm_num at hEq

/-- C2 amended: the script uses three temporal reducer kinds, not two:
mean for the trace-gas and aerosol-index composites, max for fire
radiative power, and median (not mean) for the multispectral
surface-reflectance display composites.  Each pipeline agrees with the
spec Period Compositor instantiated at its reducer kind and band. -/
theorem composite_reducer_kinds (env : Env) (c : ImageCollection) (p : Pixel) :
    clip_CO env c "CO_column_number_density" p
      = compositeSpec env .mean "CO_column_number_density" fireStart fireEnd c
          "CO_column_number_density" p ∧
    clip_NO2 env c "NO2_column_number_density" p
      = compositeSpec env .mean "NO2_column_number_density" fireStart fireEnd c
          "NO2_column_number_density" p ∧
    sent_aer env c "absorbing_aerosol_index" p
      = compositeSpec env .mean "absorbing_aerosol_index" aerStart fireEnd c
          "absorbing_aerosol_index" p ∧
    (∀ b, landsatMedianComposite env c b p
      = compositeSpec env .median b fireStart fireEnd
          ((filterMetadataLT c "CLOUD_COVER" 30).map applyScaleFactors) b p) ∧
    modisFire_roi env c "MaxFRP" p
      = compositeSpec env .max "MaxFRP" fireStart fireEnd c "MaxFRP" p := by
  refine ⟨?_, ?_, aer_composite_eq env c p, fun b => landsat_composite_eq env c b p,
    modis_composite_eq env c p⟩
  · exact select_first_composite_eq env .mean c "CO_column_number_density" fireStart fireEnd p
  · exact select_first_composite_eq env .mean c "NO2_column_number_density" fireStart fireEnd p

/-- C7: each monthly sample equals the spec aggregate contract applied
to the raw collection, the bucket sub-window and the region: filter to
the bucket and the region, temporal mean, band select, and areal mean
at scale 5000 with maxPixels 1e8 and bestEffort. -/
theorem monthly_aggregation_refines_spec (env : Env) (c : ImageCollection) (m : Nat)
    (hm : m < 24) :
    monthlyCOValue env c m
      = aggregateSpec env "CO_column_number_density" c (monthStartDate m) (monthEndDate m) ∧
    monthlyNO2Value env c m
      = aggregateSpec env "NO2_column_number_density" c (monthStartDate m)
          (monthEndDate m) := by
  constructor
  · unfold monthlyCOValue aggregateSpec
    rw [monthly_filter_eq env c m hm]
    rfl
  · unfold monthlyNO2Value aggregateSpec
    rw [no2_collection_eq_co, monthly_filter_eq env c m hm]
    rfl

theorem monthly_aggregation_refines_spec_witness :
    (0 : Nat) < 24 ∧
    (monthlyCOValue envW [] 0
      = aggregateSpec envW "CO_column_number_density" [] (monthStartDate 0)
          (monthEndDate 0) ∧
     monthlyNO2Value envW [] 0
      = aggregateSpec envW "NO2_column_number_density" [] (monthStartDate 0)
          (monthEndDate 0)) :=
  ⟨by decide, monthly_aggregation_refines_spec envW [] 0 (by decide)⟩

/-- C9: when the filtered and selected MODIS collection holds exactly
one image, the max composite equals that image band at every pixel
inside the region. -/
theorem max_composite_of_singleton (env : Env) (modis : ImageCollection) (im : EEImage)
    (h : filterBounds (selectIC (filterDate modis fireStart fireEnd) "MaxFRP") env.aoi
      = [im])
    (p : Pixel) (hp : env.inRegion env.aoi p = true) :
    modisFire_roi env modis "MaxFRP" p = imgValue im "MaxFRP" p := by
  unfold modisFire_roi modisFire clipImg
  simp only [hp, if_true]
  rw [h]
  unfold icReduceImg pixelVals
  cases hv : imgValue im "MaxFRP" p with
  | none => simp [List.filterMap_cons, hv, reduceVals]
  | some v => simp [List.filterMap_cons, hv, reduceVals, listMax]

/-- A single MODIS image inside the fire window and the region, with a
constant MaxFRP band. -/
def modisImgW : EEImage :=
  ⟨⟨2019, 12, 20⟩, [0], [], [("MaxFRP", fun _ => some 5)]⟩

theorem max_composite_of_singleton_witness :
    (filterBounds (selectIC (filterDate [modisImgW] fireStart fireEnd) "MaxFRP") envW.aoi
      = [modisImgW]) ∧
    envW.inRegion envW.aoi 0 = true ∧
    modisFire_roi envW [modisImgW] "MaxFRP" 0 = imgValue modisImgW "MaxFRP" 0 :=
  ⟨rfl, rfl, max_composite_of_singleton envW [modisImgW] modisImgW rfl 0 rfl⟩

/-- C10: the 24 charted monthly samples depend only on imagery dated
before 2021-01-01: two backend collections agreeing on that imagery
and differing arbitrarily afterwards produce identical CO and NO2
series and identical feature sequences. -/
theorem monthly_series_ignores_late_imagery (env : Env) (c1 c2 : ImageCollection)
    (h : c1.filter beforeCutoff = c2.filter beforeCutoff) :
    monthlyCO env c1 = monthlyCO env c2 ∧
    monthlyNO2 env c1 = monthlyNO2 env c2 ∧
    co_features env c1 = co_features env c2 ∧
    no2_features env c1 = no2_features env c2 := by
  have hco : ∀ m ∈ months, monthlyCOValue env c1 m = monthlyCOValue env c2 m := by
    intro m hmem
    have hm : m < 24 := List.mem_range.mp hmem
    unfold monthlyCOValue
    rw [monthly_filter_cutoff env c1 c2 m hm h]
  have hno2 : ∀ m ∈ months, monthlyNO2Value env c1 m = monthlyNO2Value env c2 m := by
    intro m hmem
    have hm : m < 24 := List.mem_range.mp hmem
    unfold monthlyNO2Value
    rw [no2_collection_eq_co, no2_collection_eq_co,
      monthly_filter_cutoff env c1 c2 m hm h]
  refine ⟨List.map_congr_left hco, List.map_congr_left hno2, ?_, ?_⟩
  · rw [co_features_eq, co_features_eq]
    exact List.map_congr_left (fun m hmem => by rw [hco m hmem])
  · rw [no2_features_eq, no2_features_eq]
    exact List.map_congr_left (fun m hmem => by rw [hno2 m hmem])

/-- A CO image dated 2022-01-01, after the charted series. -/
def lateImage : EEImage :=
  ⟨⟨2022, 1, 1⟩, [0], [], [("CO_column_number_density", fun _ => some 1)]⟩

theorem monthly_series_ignores_late_imagery_witness :
    (List.filter beforeCutoff ([] : ImageCollection)
      = List.filter beforeCutoff [lateImage]) ∧
    (monthlyCO envW [] = monthlyCO envW [lateImage] ∧
     monthlyNO2 envW [] = monthlyNO2 envW [lateImage] ∧
     co_features envW [] = co_features envW [lateImage] ∧
     no2_features envW [] = no2_features envW [lateImage]) :=
  ⟨rfl, monthly_series_ignores_late_imagery envW [] [lateImage] rfl⟩

end AusFire
